import Mathlib

/-!
Verification of the SQLCoder text-to-SQL backend (`src/backend/main.py`).

The development shallowly embeds the three core components of the backend:

* `generate_sql` — the rule-based translator (`SQLCoderService.generate_sql`,
  lines 75–103): an ordered if/elif chain of case-insensitive substring
  predicates over the lower-cased question, each returning a fixed SQL
  template string, with an unconditional fallback.
* `execute_sql_phase` / `execute_query_endpoint` — the executor
  (`execute_query_endpoint`, lines 125–141): classify the statement by the
  trimmed, upper-cased leading text, take the read path (fetch rows, zip
  with column names) or the write path (commit, report rows affected), and
  turn any backend failure into an error field of the response.
* `get_schema` — the schema introspector (lines 144–154): list tables from
  database metadata, then each table's columns (name, declared type) in
  order; any metadata failure aborts the whole call with an error.

The database backend is modelled as an oracle (`DB`, `MetaDB`): a function
from SQL text to either a result or a backend error message, standing for
sqlalchemy's `db.execute`.  Python strings are Lean `String`s; Python's
substring test `pat in s` is `containsSub s pat` below.
-/

/-- `isPrefixOfChars pat s` is true iff the char list `pat` is an initial
segment of `s`.  Helper for the substring test. -/
def isPrefixOfChars : List Char → List Char → Bool
  | [], _ => true
  | _ :: _, [] => false
  | p :: ps, c :: cs => p == c && isPrefixOfChars ps cs

/-- `containsSubAux pat l` is true iff `pat` occurs as a contiguous
sublist of `l`. -/
def containsSubAux (pat : List Char) : List Char → Bool
  | [] => isPrefixOfChars pat []
  | c :: cs => isPrefixOfChars pat (c :: cs) || containsSubAux pat cs

/-- `containsSub s pat` embeds Python's substring containment
`pat in s` (used by every rule predicate of `generate_sql`). -/
def containsSub (s pat : String) : Bool :=
  containsSubAux pat.data s.data

/-- Python's `str.lower()`: character-wise lower-casing. -/
def pyLower (s : String) : String :=
  ⟨s.data.map Char.toLower⟩

/-- Python's `str.upper()`: character-wise upper-casing. -/
def pyUpper (s : String) : String :=
  ⟨s.data.map Char.toUpper⟩

/-- Python's `str.strip()`: drop leading and trailing whitespace. -/
def pyStrip (s : String) : String :=
  ⟨((s.data.dropWhile Char.isWhitespace).reverse.dropWhile Char.isWhitespace).reverse⟩

/-- Python's `str.startswith(pat)`. -/
def pyStartswith (s pat : String) : Bool :=
  isPrefixOfChars pat.data s.data

/-- The translator body after normalization: the if/elif chain of
`SQLCoderService.generate_sql` (main.py lines 78–103), operating on the
already lower-cased question `q`. -/
def genFromNormalized (q : String) : String :=
  if containsSub q "customers" && containsSub q "mumbai" then
    "SELECT c.first_name, c.last_name, c.city, SUM(o.total_amount) AS total_purchases FROM customers c JOIN orders o ON c.customer_id = o.customer_id WHERE c.city = \x27Mumbai\x27 GROUP BY c.customer_id;"
  else if containsSub q "total revenue" then
    "SELECT c.city, SUM(o.total_amount) AS total_revenue FROM customers c JOIN orders o ON c.customer_id = o.customer_id GROUP BY c.city ORDER BY total_revenue DESC;"
  else if containsSub q "all customers" then
    "SELECT * FROM customers ORDER BY registration_date DESC;"
  else if containsSub q "orders" && containsSub q "status" then
    "SELECT order_id, customer_id, total_amount, status FROM orders;"
  else if containsSub q "products" then
    "SELECT * FROM products ORDER BY price DESC;"
  else if containsSub q "orders count" || containsSub q "number of orders" then
    "SELECT c.customer_id, c.first_name, COUNT(o.order_id) AS order_count FROM customers c LEFT JOIN orders o ON c.customer_id = o.customer_id GROUP BY c.customer_id ORDER BY order_count DESC;"
  else
    "SELECT * FROM customers LIMIT 10;"

/-- `SQLCoderService.generate_sql` (main.py lines 75–103): lower-case the
question (`q = question.lower()`, line 76), then run the rule chain. -/
def generate_sql (question : String) : String :=
  genFromNormalized (pyLower question)

/-- The seven fixed SQL template strings that `generate_sql` can return,
in declaration order; the last is the fallback of the final `else`. -/
def sqlTemplates : List String :=
  [ "SELECT c.first_name, c.last_name, c.city, SUM(o.total_amount) AS total_purchases FROM customers c JOIN orders o ON c.customer_id = o.customer_id WHERE c.city = \x27Mumbai\x27 GROUP BY c.customer_id;"
  , "SELECT c.city, SUM(o.total_amount) AS total_revenue FROM customers c JOIN orders o ON c.customer_id = o.customer_id GROUP BY c.city ORDER BY total_revenue DESC;"
  , "SELECT * FROM customers ORDER BY registration_date DESC;"
  , "SELECT order_id, customer_id, total_amount, status FROM orders;"
  , "SELECT * FROM products ORDER BY price DESC;"
  , "SELECT c.customer_id, c.first_name, COUNT(o.order_id) AS order_count FROM customers c LEFT JOIN orders o ON c.customer_id = o.customer_id GROUP BY c.customer_id ORDER BY order_count DESC;"
  , "SELECT * FROM customers LIMIT 10;" ]

/-- The translator's rule table: the ordered (predicate, template) pairs of
the if/elif chain, the last pair being the always-true fallback rule. -/
def ruleTable : List ((String → Bool) × String) :=
  [ (fun q => containsSub q "customers" && containsSub q "mumbai",
     "SELECT c.first_name, c.last_name, c.city, SUM(o.total_amount) AS total_purchases FROM customers c JOIN orders o ON c.customer_id = o.customer_id WHERE c.city = \x27Mumbai\x27 GROUP BY c.customer_id;")
  , (fun q => containsSub q "total revenue",
     "SELECT c.city, SUM(o.total_amount) AS total_revenue FROM customers c JOIN orders o ON c.customer_id = o.customer_id GROUP BY c.city ORDER BY total_revenue DESC;")
  , (fun q => containsSub q "all customers",
     "SELECT * FROM customers ORDER BY registration_date DESC;")
  , (fun q => containsSub q "orders" && containsSub q "status",
     "SELECT order_id, customer_id, total_amount, status FROM orders;")
  , (fun q => containsSub q "products",
     "SELECT * FROM products ORDER BY price DESC;")
  , (fun q => containsSub q "orders count" || containsSub q "number of orders",
     "SELECT c.customer_id, c.first_name, COUNT(o.order_id) AS order_count FROM customers c LEFT JOIN orders o ON c.customer_id = o.customer_id GROUP BY c.customer_id ORDER BY order_count DESC;")
  , (fun _ => true,
     "SELECT * FROM customers LIMIT 10;") ]

/-- First-match evaluation of an ordered rule table (empty table yields
the empty string; never reached for `ruleTable`, whose last rule always
matches). -/
def applyRules : List ((String → Bool) × String) → String → String
  | [], _ => ""
  | r :: rs, q => if r.1 q then r.2 else applyRules rs q

theorem genFromNormalized_eq_applyRules (q : String) :
    genFromNormalized q = applyRules ruleTable q := by
  simp only [genFromNormalized, applyRules, ruleTable, if_true]

/-- A value stored in a result cell or response mapping: the executor's
response mixes strings (row values, the success message) and integers
(`rows_affected`). -/
inductive Cell where
  | str : String → Cell
  | int : Int → Cell
deriving DecidableEq, Repr

/-- What sqlalchemy's `db.execute` hands back on success: the fetchable
rows, the result's column names (`res.keys()`), and `res.rowcount`. -/
structure ExecResult where
  rows : List (List Cell)
  cols : List String
  rowcount : Int
deriving DecidableEq, Repr

/-- The database backend as an oracle: for each SQL text, `db.execute`
either succeeds with an `ExecResult` or raises a backend error whose
message is the `String` of the `error` case. -/
structure DB where
  exec : String → Except String ExecResult

/-- The response model of the API (`QueryResponse`, main.py lines 53–57),
without the wall-clock `execution_time` field (real time is outside the
embedding). -/
structure QueryResponse where
  sql_query : String
  results : Option (List (List (String × Cell))) := none
  error : Option String := none
deriving DecidableEq, Repr

/-- The outcome of one executor call together with whether `db.commit()`
was issued during it. -/
structure ExecTrace where
  response : QueryResponse
  committed : Bool
deriving DecidableEq, Repr

/-- The read path's row construction (main.py line 134):
`{cols[i]: row[i] for i in range(len(cols))}` — pair each column name with
the row value of the same index, in column order. -/
def rowMap (cols : List String) (row : List Cell) : List (String × Cell) :=
  (List.range cols.length).map fun i => (cols.getD i "", row.getD i (Cell.str ""))

/-- The write path's single summary mapping (main.py line 137). -/
def writeSummary (rowcount : Int) : List (String × Cell) :=
  [("message", Cell.str "Executed successfully"), ("rows_affected", Cell.int rowcount)]

/-- The executor's classification test (main.py line 131):
`sql.strip().upper().startswith("SELECT")` — trim surrounding whitespace,
case-fold, and test for the leading read keyword. -/
def isReadStatement (sql : String) : Bool :=
  pyStartswith (pyUpper (pyStrip sql)) "SELECT"

/-- The executor phase of `execute_query_endpoint` (main.py lines
130–141), for an already-generated statement `sql`: run it against the
backend; on success take the read path (fetch all rows, zip with column
names, no commit) or the write path (commit, then report rows affected);
on a backend error return a response carrying `sql` and the error message,
with nothing committed. -/
def execute_sql_phase (db : DB) (sql : String) : ExecTrace :=
  match db.exec sql with
  | .error e =>
      { response := { sql_query := sql, error := some e }, committed := false }
  | .ok r =>
      if isReadStatement sql then
        { response :=
            { sql_query := sql, results := some (r.rows.map (rowMap r.cols)) }
          committed := false }
      else
        { response :=
            { sql_query := sql, results := some [writeSummary r.rowcount] }
          committed := true }

/-- `execute_query_endpoint` (main.py lines 125–141): generate the SQL from
the question, then run the executor phase on it. -/
def execute_query_endpoint (db : DB) (question : String) : ExecTrace :=
  execute_sql_phase db (generate_sql question)

/-- The metadata oracle behind `get_schema`: `masterTables` is the outcome
of the `sqlite_master` table-name query (main.py line 147) and
`tableInfo t` the outcome of `PRAGMA table_info(t)` (line 150), each row a
list of fields `(cid, name, type, ...)`. -/
structure MetaDB where
  masterTables : Except String (List String)
  tableInfo : String → Except String (List (List String))

/-- The introspection loop of `get_schema` (main.py lines 149–151): for
each listed table, fetch its pragma rows and keep `(c[1], c[2])` — column
name and declared type — in row order; the first metadata failure aborts
the whole call with that error. -/
def schemaRows (db : MetaDB) : List String → Except String (List (String × List (String × String)))
  | [] => .ok []
  | t :: ts =>
      match db.tableInfo t with
      | .error e => .error e
      | .ok cols =>
          match schemaRows db ts with
          | .error e => .error e
          | .ok rest => .ok ((t, cols.map fun c => (c.getD 1 "", c.getD 2 "")) :: rest)

/-- `get_schema` (main.py lines 144–154): list the tables from database
metadata, then build the table → columns descriptor; any metadata failure
is surfaced as an error (the raised `HTTPException`), never a partial
descriptor. -/
def get_schema (db : MetaDB) : Except String (List (String × List (String × String))) :=
  match db.masterTables with
  | .error e => .error e
  | .ok ts => schemaRows db ts

theorem generate_sql_mem_sqlTemplates (q : String) :
    generate_sql q ∈ sqlTemplates := by
  unfold generate_sql genFromNormalized sqlTemplates
  split
  · simp
  · split
    · simp
    · split
      · simp
      · split
        · simp
        · split
          · simp
          · split <;> simp

theorem applyRules_first_match (rs : List ((String → Bool) × String)) (q : String) :
    ∀ (i : Nat) (hi : i < rs.length),
      (rs.get ⟨i, hi⟩).1 q = true →
      (∀ k (hk : k < rs.length), k < i → (rs.get ⟨k, hk⟩).1 q = false) →
      applyRules rs q = (rs.get ⟨i, hi⟩).2 := by
  induction rs with
  | nil => intro i hi; simp at hi
  | cons r rs ih =>
    intro i hi hm hf
    cases i with
    | zero =>
      simp only [List.get] at hm ⊢
      simp [applyRules, hm]
    | succ i =>
      have hr : r.1 q = false := hf 0 (by simp) (Nat.succ_pos i)
      simp only [List.get] at hm ⊢
      simp only [applyRules, hr, Bool.false_eq_true, if_false]
      exact ih i (by simpa using hi) hm
        (fun k hk hki => hf (k + 1) (by simpa using Nat.succ_lt_succ hk) (Nat.succ_lt_succ hki))

theorem rowMap_eq_zip (cols : List String) :
    ∀ (row : List Cell), row.length = cols.length → rowMap cols row = cols.zip row := by
  induction cols with
  | nil => intro row h; simp [rowMap]
  | cons c cs ih =>
    intro row h
    cases row with
    | nil => simp at h
    | cons v vs =>
      have hrest := ih vs (by simpa using h)
      simp only [rowMap, List.length_cons, List.range_succ_eq_map, List.map_cons,
        List.map_map, List.getD_cons_zero, List.zip_cons_cons] at hrest ⊢
      refine congrArg _ ?_
      rw [← hrest]
      apply List.map_congr_left
      intro i _
      simp [Function.comp, List.getElem?_cons_succ]

theorem schemaRows_ok (db : MetaDB) (f : String → List (List String)) :
    ∀ ts : List String, (∀ t ∈ ts, db.tableInfo t = .ok (f t)) →
      schemaRows db ts = .ok (ts.map fun t => (t, (f t).map fun c => (c.getD 1 "", c.getD 2 ""))) := by
  intro ts
  induction ts with
  | nil => intro _; simp [schemaRows]
  | cons t ts ih =>
    intro h
    have ht := h t (by simp)
    have hrest := ih (fun u hu => h u (by simp [hu]))
    simp [schemaRows, ht, hrest]

theorem schemaRows_err (db : MetaDB) :
    ∀ (ts : List String) (t e : String), t ∈ ts → db.tableInfo t = .error e →
      ∃ e2, schemaRows db ts = .error e2 := by
  intro ts
  induction ts with
  | nil => intro t e h _; simp at h
  | cons a ts ih =>
    intro t e hmem herr
    rcases List.mem_cons.mp hmem with heq | hmem2
    · subst heq
      exact ⟨e, by simp [schemaRows, herr]⟩
    · cases ha : db.tableInfo a with
      | error e3 => exact ⟨e3, by simp [schemaRows, ha]⟩
      | ok cols =>
        obtain ⟨e2, h2⟩ := ih t e hmem2 herr
        exact ⟨e2, by simp [schemaRows, ha, h2]⟩

theorem sqlTemplates_isRead : ∀ s ∈ sqlTemplates, isReadStatement s = true := by
  decide

/-- The default rule used with `List.getD` when indexing into `ruleTable`
(its predicate never matches, so it is inert). -/
def dfltRule : (String → Bool) × String := (fun _ => false, "")

/-- C1: the translator is total: for every question — the empty string
included — `generate_sql` returns a non-empty SQL statement, and whenever
none of the six keyword rules matches the lower-cased question, the
default rule (whose predicate is always true) fires and returns the
bounded fallback read statement `SELECT * FROM customers LIMIT 10;`.  The
embedded translator is a total function, so it has no error path. -/
theorem translate_total_nonempty (q : String) :
    generate_sql q ≠ "" ∧
    ((∀ i, i < 6 → (ruleTable.getD i dfltRule).1 (pyLower q) = false) →
      generate_sql q = "SELECT * FROM customers LIMIT 10;") := by
  constructor
  · have h := generate_sql_mem_sqlTemplates q
    simp only [sqlTemplates, List.mem_cons, List.not_mem_nil, or_false] at h
    rcases h with h | h | h | h | h | h | h <;> rw [h] <;> decide
  · intro h
    have h0 := h 0 (by omega); have h1 := h 1 (by omega); have h2 := h 2 (by omega)
    have h3 := h 3 (by omega); have h4 := h 4 (by omega); have h5 := h 5 (by omega)
    simp only [ruleTable, List.getD_cons_zero, List.getD_cons_succ] at h0 h1 h2 h3 h4 h5
    simp only [generate_sql, genFromNormalized, h0, h1, h2, h3, h4, h5,
      Bool.false_eq_true, if_false]

/-- Witness for C1 at the concrete question `""`: no keyword rule matches
the empty string, and the fallback statement comes back non-empty. -/
theorem translate_total_nonempty_witness :
    generate_sql "" ≠ "" ∧ generate_sql "" = "SELECT * FROM customers LIMIT 10;" := by
  have h := translate_total_nonempty ""
  exact ⟨h.1, h.2 (by decide)⟩

/-- C2: the executor classifies a statement by its whitespace-trimmed,
upper-cased leading text (`sql.strip().upper().startswith("SELECT")`,
main.py line 131): a statement whose leading keyword is the read keyword
`SELECT` takes the read path — rows fetched and zipped with column names,
no commit — and every other statement takes the write path, where the
transaction is committed and the response reports success with the
rows-affected count. -/
theorem executor_read_write_classification (db : DB) (sql : String) (r : ExecResult)
    (h : db.exec sql = .ok r) :
    (isReadStatement sql = true →
      (execute_sql_phase db sql).committed = false ∧
      (execute_sql_phase db sql).response.results = some (r.rows.map (rowMap r.cols)) ∧
      (execute_sql_phase db sql).response.error = none) ∧
    (isReadStatement sql = false →
      (execute_sql_phase db sql).committed = true ∧
      (execute_sql_phase db sql).response.results = some [writeSummary r.rowcount] ∧
      (execute_sql_phase db sql).response.error = none) := by
  constructor <;> intro hc <;> simp [execute_sql_phase, h, hc]

/-- A backend oracle that always succeeds with one row, one column, and
rowcount 1; used to witness the executor theorems. -/
def okDB : DB :=
  ⟨fun _ => .ok { rows := [[Cell.str "Alice"]], cols := ["first_name"], rowcount := 1 }⟩

/-- Witness for C2: on `okDB`, a leading-`select` statement takes the read
path without committing, and a `DELETE` statement takes the write path and
commits before reporting success. -/
theorem executor_read_write_classification_witness :
    ((execute_sql_phase okDB "  select * from customers").committed = false ∧
      (execute_sql_phase okDB "  select * from customers").response.results =
        some [[("first_name", Cell.str "Alice")]] ∧
      (execute_sql_phase okDB "  select * from customers").response.error = none) ∧
    ((execute_sql_phase okDB "DELETE FROM customers").committed = true ∧
      (execute_sql_phase okDB "DELETE FROM customers").response.results =
        some [writeSummary 1] ∧
      (execute_sql_phase okDB "DELETE FROM customers").response.error = none) := by
  constructor
  · have h := (executor_read_write_classification okDB "  select * from customers" _ rfl).1
      (by decide)
    exact ⟨h.1, by rw [h.2.1]; decide, h.2.2⟩
  · have h := (executor_read_write_classification okDB "DELETE FROM customers" _ rfl).2
      (by decide)
    exact ⟨h.1, by rw [h.2.1], h.2.2⟩

/-- A backend oracle that always fails with a fixed error message; used to
witness the error-containment theorem. -/
def errDB : DB := ⟨fun _ => .error "no such table: customers"⟩

/-- C3: when the executor phase of the generate-and-execute operation
fails with any backend error, the operation still returns a normal
response object (the embedded endpoint is a total function, so nothing
escapes the service boundary) whose payload carries both the generated SQL
text and the error message; nothing is committed. -/
theorem execute_error_response_carries_sql (db : DB) (question e : String)
    (h : db.exec (generate_sql question) = .error e) :
    (execute_query_endpoint db question).response.sql_query = generate_sql question ∧
    (execute_query_endpoint db question).response.error = some e ∧
    (execute_query_endpoint db question).committed = false := by
  simp [execute_query_endpoint, execute_sql_phase, h]

/-- Witness for C3 at the concrete question `"hello"` against the
always-failing backend `errDB`. -/
theorem execute_error_response_carries_sql_witness :
    (execute_query_endpoint errDB "hello").response.sql_query =
      "SELECT * FROM customers LIMIT 10;" ∧
    (execute_query_endpoint errDB "hello").response.error =
      some "no such table: customers" ∧
    (execute_query_endpoint errDB "hello").committed = false := by
  have h := execute_error_response_carries_sql errDB "hello" "no such table: customers" rfl
  exact ⟨by rw [h.1]; decide, h.2.1, h.2.2⟩

/-- C4: translation is a pure, closed mapping: calling `generate_sql`
twice on the same question yields identical SQL text (the translator is a
pure function of the question — it reads no service state), and every
output is one of the seven fixed template strings of `sqlTemplates`, each
a constant literal into which no part of the question is spliced: the
mapping is template selection, never value substitution. -/
theorem translate_pure_closed_mapping (q : String) :
    generate_sql q = generate_sql q ∧ generate_sql q ∈ sqlTemplates :=
  ⟨rfl, generate_sql_mem_sqlTemplates q⟩

/-- C5: rules are evaluated in declaration order and the first rule whose
predicate matches the normalized (lower-cased) question wins: if rule `i`
matches and every earlier rule fails to match, the translator returns rule
`i`'s template — so when two or more rules match, the earliest-declared
one decides the output and later rules have no effect. -/
theorem first_matching_rule_wins (q : String) (i : Nat) (hi : i < ruleTable.length)
    (hmatch : (ruleTable.getD i dfltRule).1 (pyLower q) = true)
    (hfirst : ∀ k, k < i → (ruleTable.getD k dfltRule).1 (pyLower q) = false) :
    generate_sql q = (ruleTable.getD i dfltRule).2 := by
  have hg : generate_sql q = applyRules ruleTable (pyLower q) :=
    genFromNormalized_eq_applyRules (pyLower q)
  rw [List.getD_eq_getElem _ _ hi] at hmatch
  rw [hg, List.getD_eq_getElem _ _ hi]
  have hf : ∀ k (hk : k < ruleTable.length), k < i →
      (ruleTable.get ⟨k, hk⟩).1 (pyLower q) = false := by
    intro k hk hki
    have hk2 := hfirst k hki
    rw [List.getD_eq_getElem _ _ hk] at hk2
    rw [List.get_eq_getElem]
    exact hk2
  have hmain := applyRules_first_match ruleTable (pyLower q) i hi
    (by rw [List.get_eq_getElem]; exact hmatch) hf
  rw [List.get_eq_getElem] at hmain
  exact hmain

/-- Witness for C5 at the question `"all customers products"`, which is
matched by both rule 2 (`"all customers"`) and rule 4 (`"products"`): the
earlier rule 2 wins and its template is returned. -/
theorem first_matching_rule_wins_witness :
    generate_sql "all customers products" =
      "SELECT * FROM customers ORDER BY registration_date DESC;" := by
  have h := first_matching_rule_wins "all customers products" 2 (by decide)
    (by decide) (by decide)
  rw [h]; decide

set_option maxRecDepth 4096 in
/-- Counterexample for C6: the source normalizes by lower-casing only
(`q = question.lower()`, main.py line 76) and does not collapse
whitespace. `"total revenue"` and `"total  revenue"` differ only in one
run of spaces, yet the first selects the revenue rule while the second
falls through to the fallback, yielding different SQL. -/
theorem normalization_whitespace_cex :
    generate_sql "total revenue" =
      "SELECT c.city, SUM(o.total_amount) AS total_revenue FROM customers c JOIN orders o ON c.customer_id = o.customer_id GROUP BY c.city ORDER BY total_revenue DESC;" ∧
    generate_sql "total  revenue" = "SELECT * FROM customers LIMIT 10;" ∧
    generate_sql "total revenue" ≠ generate_sql "total  revenue" :=
  ⟨by decide, by decide, by decide⟩

/-- C6 amended: before any rule predicate is evaluated the question is
normalized by lower-casing only — whitespace is not collapsed — and this
normalization never fails; consequently two questions differing only in
letter case select the same rule and yield the same SQL (questions
differing in runs of whitespace need not). -/
theorem normalization_lowercase_only (q1 q2 : String) (h : pyLower q1 = pyLower q2) :
    generate_sql q1 = generate_sql q2 := by
  unfold generate_sql
  rw [h]

/-- Witness for the amended C6 at the concrete pair
`"SHOW ALL CUSTOMERS"` / `"show all customers"`, which differ only in
letter case. -/
theorem normalization_lowercase_only_witness :
    generate_sql "SHOW ALL CUSTOMERS" = generate_sql "show all customers" :=
  normalization_lowercase_only "SHOW ALL CUSTOMERS" "show all customers" (by decide)

/-- C7: on the read path the executor fetches all resulting rows and the
column names and returns the ordered sequence of name→value mappings, each
pairing the column names with that row's values in column order (for rows
matching the column count, the mapping is exactly `cols.zip row`); the
executor itself imposes no row limit — the result has exactly one mapping
per fetched row. -/
theorem read_path_returns_all_rows (db : DB) (sql : String) (r : ExecResult)
    (hexec : db.exec sql = .ok r) (hread : isReadStatement sql = true)
    (hlen : ∀ row ∈ r.rows, row.length = r.cols.length) :
    (execute_sql_phase db sql).response.results =
      some (r.rows.map fun row => r.cols.zip row) ∧
    ∀ rs, (execute_sql_phase db sql).response.results = some rs →
      rs.length = r.rows.length := by
  have hres : (execute_sql_phase db sql).response.results =
      some (r.rows.map (rowMap r.cols)) := by
    simp [execute_sql_phase, hexec, hread]
  constructor
  · rw [hres]
    refine congrArg some ?_
    exact List.map_congr_left fun row hrow => rowMap_eq_zip r.cols row (hlen row hrow)
  · intro rs hrs
    rw [hres, Option.some_inj] at hrs
    cases hrs
    simp

/-- A backend oracle answering every statement with two rows over two
columns; used to witness the read-path theorem. -/
def okDB2 : DB :=
  ⟨fun _ => .ok
    { rows := [[Cell.str "a1", Cell.int 1], [Cell.str "a2", Cell.int 2]]
      cols := ["name", "n"]
      rowcount := -1 }⟩

/-- Witness for C7 against `okDB2`: both fetched rows come back, each
zipped with the column names in column order. -/
theorem read_path_returns_all_rows_witness :
    (execute_sql_phase okDB2 "SELECT name, n FROM t").response.results =
      some [[("name", Cell.str "a1"), ("n", Cell.int 1)],
            [("name", Cell.str "a2"), ("n", Cell.int 2)]] ∧
    ∀ rs, (execute_sql_phase okDB2 "SELECT name, n FROM t").response.results = some rs →
      rs.length = 2 := by
  have h := read_path_returns_all_rows okDB2 "SELECT name, n FROM t" _ rfl
    (by decide) (by decide)
  exact ⟨by rw [h.1]; decide, fun rs hrs => h.2 rs hrs⟩

/-- Counterexample for C8: for the input `"Show all customers"` the
translator does select the list-customers rule, but the resulting SQL —
`SELECT * FROM customers ORDER BY registration_date DESC;` — contains no
`LIMIT` clause: it is ordered but not row-count limited, refuting the
claim that it is both bounded and ordered. -/
theorem show_all_customers_not_bounded :
    generate_sql "Show all customers" =
      "SELECT * FROM customers ORDER BY registration_date DESC;" ∧
    containsSub (pyUpper (generate_sql "Show all customers")) "LIMIT" = false :=
  ⟨by decide, by decide⟩

/-- C8 amended: for the input `"Show all customers"` translation selects
the list-customers rule (the template at index 2 of the rule table) and
the resulting SQL is a SELECT over the customers relation that is ordered
(it carries an `ORDER BY` clause) but imposes no row-count limit. -/
theorem show_all_customers_ordered_select :
    generate_sql "Show all customers" = sqlTemplates.getD 2 "" ∧
    pyStartswith (generate_sql "Show all customers") "SELECT" = true ∧
    containsSub (generate_sql "Show all customers") "FROM customers" = true ∧
    containsSub (generate_sql "Show all customers") "ORDER BY" = true ∧
    containsSub (pyUpper (generate_sql "Show all customers")) "LIMIT" = false :=
  ⟨by decide, by decide, by decide, by decide, by decide⟩

/-- C9: `get_schema` lists the base tables from database metadata and
maps each table, in listing order, to its columns with name (`c[1]`) and
declared type (`c[2]`) in declaration order; the descriptor is recomputed
from the metadata oracle on every call — `get_schema` is a pure function
of the live `MetaDB`, nothing is cached — and on any metadata failure,
whether of the table listing or of any per-table column query, the call
surfaces an error to the caller and never returns a partial map. -/
theorem describe_schema_spec (db : MetaDB) (ts : List String)
    (f : String → List (List String)) :
    (∀ e, db.masterTables = .error e → get_schema db = .error e) ∧
    (db.masterTables = .ok ts → (∀ t ∈ ts, db.tableInfo t = .ok (f t)) →
      get_schema db =
        .ok (ts.map fun t => (t, (f t).map fun c => (c.getD 1 "", c.getD 2 "")))) ∧
    (db.masterTables = .ok ts → ∀ t ∈ ts, ∀ e, db.tableInfo t = .error e →
      ∃ e2, get_schema db = .error e2) := by
  refine ⟨?_, ?_, ?_⟩
  · intro e he
    simp [get_schema, he]
  · intro hts hall
    simp only [get_schema, hts]
    exact schemaRows_ok db f ts hall
  · intro hts t hmem e herr
    obtain ⟨e2, h2⟩ := schemaRows_err db ts t e hmem herr
    exact ⟨e2, by simp [get_schema, hts, h2]⟩

/-- A metadata oracle with two tables and fixed pragma rows; used to
witness the introspection theorem. -/
def goodMetaDB : MetaDB :=
  { masterTables := .ok ["customers", "orders"]
    tableInfo := fun t =>
      if t = "customers" then
        .ok [["0", "customer_id", "INTEGER"], ["1", "first_name", "TEXT"]]
      else
        .ok [["0", "order_id", "INTEGER"]] }

/-- Witness for C9 against `goodMetaDB`: both tables appear in listing
order, each mapped to its (name, type) column descriptors in declaration
order. -/
theorem describe_schema_spec_witness :
    get_schema goodMetaDB =
      .ok [("customers", [("customer_id", "INTEGER"), ("first_name", "TEXT")]),
           ("orders", [("order_id", "INTEGER")])] := by
  have h := (describe_schema_spec goodMetaDB ["customers", "orders"]
    (fun t =>
      if t = "customers" then
        [["0", "customer_id", "INTEGER"], ["1", "first_name", "TEXT"]]
      else
        [["0", "order_id", "INTEGER"]])).2.1 rfl (by intro t ht; fin_cases ht <;> rfl)
  rw [h]
  rfl

/-- C10: every SQL statement the translator can produce begins with the
read keyword `SELECT` after trimming and case-folding, so on the
generate-and-execute path the executor's write branch is unreachable: the
endpoint never issues a commit for a translator-generated statement,
whatever the question and whatever the backend answers. -/
theorem generated_sql_never_commits (db : DB) (q : String) :
    isReadStatement (generate_sql q) = true ∧
    (execute_query_endpoint db q).committed = false := by
  have hread := sqlTemplates_isRead _ (generate_sql_mem_sqlTemplates q)
  refine ⟨hread, ?_⟩
  unfold execute_query_endpoint execute_sql_phase
  cases h : db.exec (generate_sql q) with
  | error e => rfl
  | ok r => simp [hread]
